import Mathlib

/-!
Verification of the points-and-voucher redemption workflow of the
PanaragaPulse single-page application.

The data model and operations below are shallow embeddings of the client
code in `src/views/RewardsShop.vue`, `src/views/RewardsManagement.vue`,
`src/views/TouristScan.vue` and the event-participant views, over an
explicit `Store` state standing for the hosted database.  Timestamps are
integers, JS `null`/`undefined` becomes `Option`, and the loosely-typed
status field stays a `String` exactly as in the source.
-/

namespace PanaragaPulse

/-- A `users` row: identifier and points balance (`points` is a JS number,
modelled as `Int`). -/
structure User where
  id : Nat
  points : Int
  deriving Repr, DecidableEq

/-- A `rewards` row as fetched by the views: cost, nullable stock,
active flag and the descriptive fields the admin form edits. -/
structure Reward where
  id : Nat
  name : String
  description : String
  points_cost : Int
  stock_quantity : Option Int
  category : String
  is_active : Bool
  reward_image_url : Option String
  deriving Repr, DecidableEq

/-- A `redemptions` row.  The status is a plain string in the source
(`pending`, `claimed`, `used`, `expired`, `cancelled` are the values the
UI produces, but nothing constrains the column). -/
structure Redemption where
  id : Nat
  user_id : Nat
  reward_id : Nat
  points_spent : Int
  voucher_code : String
  status : String
  created_at : Int
  expires_at : Int
  claimed_by : Option Nat
  claimed_at : Option Int
  deriving Repr, DecidableEq

/-- The hosted database state the client calls mutate. -/
structure Store where
  users : List User
  rewards : List Reward
  redemptions : List Redemption
  deriving Repr, DecidableEq

/-- Voucher codes currently present in the `redemptions` table. -/
def Store.codes (s : Store) : List String :=
  s.redemptions.map Redemption.voucher_code

/-- Row lookup by user id. -/
def findUser (s : Store) (userId : Nat) : Option User :=
  s.users.find? (fun u => u.id = userId)

/-- Row lookup by reward id. -/
def findReward (s : Store) (rewardId : Nat) : Option Reward :=
  s.rewards.find? (fun rw => rw.id = rewardId)

/-- `RewardsShop.vue` line 72: `(props.userProfile?.points || 0) >= cost`.
`none` stands for a missing profile or a missing points field (both are
`0` after `|| 0`, and a stored `0` is also falsy, hence also `0`). -/
def canAfford (profilePoints : Option Int) (cost : Int) : Bool :=
  decide (profilePoints.getD 0 ≥ cost)

/-- `RewardsShop.vue` line 101: `new Date(expiresAt) < new Date()`. -/
def isExpired (expiresAt now : Int) : Bool :=
  decide (expiresAt < now)

/-- The expiry check applied to a redemption record: it reads only
`expires_at`, never the stored status. -/
def isEffectivelyExpired (r : Redemption) (now : Int) : Bool :=
  isExpired r.expires_at now

/-- `RewardsShop.vue` lines 466-468 (the History list badge):
`isExpired(redemption.expires_at) ? 'expired' : redemption.status`. -/
def historyBadgeStatus (r : Redemption) (now : Int) : String :=
  if isExpired r.expires_at now then "expired" else r.status

/-- `RewardsManagement.vue` lines 504-511 (the admin redemptions table
status cell): renders `redemption.status` with no expiry check. -/
def managementStatusCell (r : Redemption) : String :=
  r.status

/-! ### Status-transition operation (`RewardsManagement.vue` 274-299) -/

/-- The `updateData` object of `updateRedemptionStatus` applied to a row:
always `status`, plus `claimed_at`/`claimed_by` exactly when the requested
status is `'claimed'`.  No other field appears in the update. -/
def applyRedemptionUpdate (newStatus : String) (actorId : Nat) (now : Int)
    (r : Redemption) : Redemption :=
  if newStatus = "claimed" then
    { r with status := newStatus, claimed_at := some now, claimed_by := some actorId }
  else
    { r with status := newStatus }

/-- `updateRedemptionStatus(redemptionId, newStatus)`: unconditionally
issues `update(updateData).eq('id', redemptionId)` on the `redemptions`
table — the source performs no validation of the requested status. -/
def updateRedemptionStatus (s : Store) (redemptionId : Nat) (newStatus : String)
    (actorId : Nat) (now : Int) : Store :=
  { s with redemptions := s.redemptions.map (fun r =>
      if r.id = redemptionId then applyRedemptionUpdate newStatus actorId now r else r) }

/-- The monotonic state machine of spec §3, written from the spec's words
for comparison with the code: `pending → claimed → used`, with
`expired`/`cancelled` reachable from `pending` or `claimed`, nothing
reversible. -/
def specAllowedTransition (fromStatus toStatus : String) : Bool :=
  (fromStatus = "pending" &&
    (toStatus = "claimed" || toStatus = "expired" || toStatus = "cancelled")) ||
  (fromStatus = "claimed" &&
    (toStatus = "used" || toStatus = "expired" || toStatus = "cancelled"))

/-! ### Admin reward editing (`RewardsManagement.vue` 190-250) -/

/-- The admin create/edit form state (`formData`). -/
structure RewardForm where
  id : Nat
  name : String
  description : String
  points_cost : Int
  stock_quantity : Option Int
  category : String
  is_active : Bool
  reward_image_url : String
  deriving Repr, DecidableEq

/-- JS `formData.value.stock_quantity || null`: a stored `0` is falsy and
becomes `null`. -/
def jsStockOrNull (q : Option Int) : Option Int :=
  match q with
  | some 0 => none
  | x => x

/-- JS `formData.value.reward_image_url || null`. -/
def jsUrlOrNull (u : String) : Option String :=
  if u = "" then none else some u

/-- The `rewardData` object of `saveReward` applied to an existing row
(the editing branch updates exactly these columns). -/
def applyRewardData (f : RewardForm) (rw : Reward) : Reward :=
  { rw with
      name := f.name.trim
      description := f.description.trim
      points_cost := f.points_cost
      stock_quantity := jsStockOrNull f.stock_quantity
      category := f.category
      is_active := f.is_active
      reward_image_url := jsUrlOrNull f.reward_image_url }

/-- The row inserted by the create branch of `saveReward`. -/
def newRewardRow (f : RewardForm) (newId : Nat) : Reward :=
  { id := newId
    name := f.name.trim
    description := f.description.trim
    points_cost := f.points_cost
    stock_quantity := jsStockOrNull f.stock_quantity
    category := f.category
    is_active := f.is_active
    reward_image_url := jsUrlOrNull f.reward_image_url }

/-- `saveReward`: client-side validation (non-blank name and description,
`points_cost > 0`), then either `update ... eq('id', formData.id)` on the
`rewards` table (editing) or an insert (creating).  Only the `rewards`
table is touched. -/
def saveReward (isEditing : Bool) (f : RewardForm) (newId : Nat) (s : Store) : Store :=
  if f.name.trim = "" ∨ f.description.trim = "" ∨ f.points_cost ≤ 0 then s
  else if isEditing then
    { s with rewards := s.rewards.map (fun rw =>
        if rw.id = f.id then applyRewardData f rw else rw) }
  else
    { s with rewards := s.rewards ++ [newRewardRow f newId] }

/-! ### Client-side points increments -/

/-- `TouristScan.vue` line 267: `(userProfile.value?.points || 0) + 10` —
the new balance is computed from the client-side cached profile, not from
the store's current row. -/
def ecoActionNewPoints (cachedPoints : Option Int) : Int :=
  cachedPoints.getD 0 + 10

/-- `TouristScan.vue` lines 268-271: `update({ points: newPoints })` — an
absolute value computed client-side is written to the user's row. -/
def applyEcoActionPointsWrite (cachedPoints : Option Int) (userId : Nat)
    (s : Store) : Store :=
  { s with users := s.users.map (fun u =>
      if u.id = userId then { u with points := ecoActionNewPoints cachedPoints } else u) }

/-- Attendance verification (`EventParticipants` code, part_005 line 838):
`(userData.points || 0) + selectedEvent.points_reward`, where
`userData.points` was read by an earlier, separate query. -/
def attendanceNewPoints (readPoints : Option Int) (pointsReward : Int) : Int :=
  readPoints.getD 0 + pointsReward

/-- part_005 lines 839-843: the separate `update({ points: newPoints })`
writing the value computed from the earlier read. -/
def applyAttendancePointsWrite (readPoints : Option Int) (pointsReward : Int)
    (userId : Nat) (s : Store) : Store :=
  { s with users := s.users.map (fun u =>
      if u.id = userId then { u with points := attendanceNewPoints readPoints pointsReward } else u) }

/-! ### The hosted `redeem_reward` procedure and the client flow around it -/

/-- Business-rule failures of the redemption procedure (spec §7). -/
inductive RpcError where
  | notFound
  | insufficientBalance
  | outOfStock
  | storageUnavailable
  deriving Repr, DecidableEq

/-- Spec §4.1: a tracked stock is exhausted when it is non-null and not
greater than zero; `null` stock is unlimited. -/
def stockExhausted (q : Option Int) : Bool :=
  match q with
  | none => false
  | some n => decide (n ≤ 0)

/-- Spec §4.1/§5: voucher format `PREFIX-timestamp-random`. -/
def voucherCode (pfx : String) (now : Int) (rand : String) : String :=
  pfx ++ "-" ++ toString now ++ "-" ++ rand

/-- Modelled from the spec: the hosted SQL function `redeem_reward` that
`RewardsShop.vue` line 124 invokes via `supabase.rpc` is not part of this
repository, so it is modelled from spec §4.1, §6 and §7: check the reward
exists and is active (`NotFound`), the user's current points cover the
cost (`InsufficientBalance`), the stock is null or positive
(`OutOfStock`); then, in one transaction, decrement stock (when tracked),
deduct the cost from the user's points, generate the voucher code and
insert a `pending` redemption whose `points_spent` snapshots the cost and
whose `expires_at` is a configured offset from now.  The `voucher_code`
column is unique (spec §6), so a transaction whose generated code
collides with an existing one cannot commit. -/
def redeemRpc (pfx : String) (expiryOffset : Int) (s : Store)
    (userId rewardId : Nat) (now : Int) (rand : String) (newId : Nat) :
    Except RpcError Redemption × Store :=
  match findUser s userId with
  | none => (.error .notFound, s)
  | some u =>
    match findReward s rewardId with
    | none => (.error .notFound, s)
    | some rw =>
      if !rw.is_active then (.error .notFound, s)
      else if u.points < rw.points_cost then (.error .insufficientBalance, s)
      else if stockExhausted rw.stock_quantity then (.error .outOfStock, s)
      else if voucherCode pfx now rand ∈ s.codes then (.error .storageUnavailable, s)
      else
          let red : Redemption :=
            { id := newId
              user_id := userId
              reward_id := rewardId
              points_spent := rw.points_cost
              voucher_code := voucherCode pfx now rand
              status := "pending"
              created_at := now
              expires_at := now + expiryOffset
              claimed_by := none
              claimed_at := none }
          (.ok red,
            { users := s.users.map (fun x =>
                if x.id = userId then { x with points := x.points - rw.points_cost } else x)
              rewards := s.rewards.map (fun x =>
                if x.id = rewardId then { x with stock_quantity := x.stock_quantity.map (· - 1) } else x)
              redemptions := s.redemptions ++ [red] })

/-- Outcomes of the client `redeemReward` flow: the two client-side
fail-fast messages, user cancellation of the confirm dialog, a failure
reported by the RPC, or success. -/
inductive RedeemOutcome where
  | insufficientPoints
  | outOfStock
  | notConfirmed
  | rpcError (e : RpcError)
  | success
  deriving Repr, DecidableEq

/-- `RewardsShop.vue` lines 106-161, `redeemReward(reward)`: the client
checks `canAfford` first (line 107), then the stock (line 112), then asks
for confirmation (line 117), and only then calls the `redeem_reward` RPC.
Each client-side failure returns before any store call is issued. -/
def redeemReward (pfx : String) (expiryOffset : Int)
    (profilePoints : Option Int) (userId : Nat) (reward : Reward)
    (confirmed : Bool) (now : Int) (rand : String) (newId : Nat)
    (s : Store) : RedeemOutcome × Store :=
  if !canAfford profilePoints reward.points_cost then (.insufficientPoints, s)
  else if reward.stock_quantity ≠ none ∧ (reward.stock_quantity.getD 0) ≤ 0 then (.outOfStock, s)
  else if !confirmed then (.notConfirmed, s)
  else
    match redeemRpc pfx expiryOffset s userId reward.id now rand newId with
    | (.ok _, s₂) => (.success, s₂)
    | (.error e, s₂) => (.rpcError e, s₂)

/-! ### Sample rows used to instantiate the theorems -/

/-- A redemption stored as `claimed` whose expiry has passed at time 10. -/
def sampleClaimedRedemption : Redemption :=
  { id := 1, user_id := 1, reward_id := 1, points_spent := 50,
    voucher_code := "RWD-0-AB12CD34E", status := "claimed",
    created_at := 0, expires_at := 5, claimed_by := some 2, claimed_at := some 3 }

/-- A redemption stored as `pending` whose expiry has passed at time 100. -/
def pendingExpiredRow : Redemption :=
  { id := 2, user_id := 1, reward_id := 1, points_spent := 50,
    voucher_code := "RWD-0-EF56GH78I", status := "pending",
    created_at := 0, expires_at := 10, claimed_by := none, claimed_at := none }

/-! ### C4 -/

/-- C4: `isEffectivelyExpired(redemption, now)` is the pure comparison
`now > redemption.expires_at`; it is unchanged by any rewrite of the
stored status field, and a `claimed` redemption whose `expires_at` is
strictly in the past is reported expired. -/
theorem isEffectivelyExpired_is_time_comparison (r : Redemption) (now : Int) :
    (isEffectivelyExpired r now = decide (now > r.expires_at)) ∧
    (∀ st : String, isEffectivelyExpired { r with status := st } now
        = isEffectivelyExpired r now) ∧
    (r.status = "claimed" → r.expires_at < now → isEffectivelyExpired r now = true) :=
  ⟨rfl, fun _ => rfl, fun _ h => by simpa [isEffectivelyExpired, isExpired] using h⟩

/-- C4 witness: the theorem evaluated on a concrete `claimed`, past-expiry
redemption. -/
theorem isEffectivelyExpired_is_time_comparison_witness :
    isEffectivelyExpired sampleClaimedRedemption 10 = true :=
  (isEffectivelyExpired_is_time_comparison sampleClaimedRedemption 10).2.2
    (by decide) (by decide)

/-! ### C10 -/

/-- C10: `canAfford(cost)` holds exactly when the profile's points value,
defaulted to 0 when the profile or its points field is absent, is at least
the cost; with no points field, a positive cost can never be afforded. -/
theorem canAfford_characterization (p : Option Int) (c : Int) :
    (canAfford p c = true ↔ p.getD 0 ≥ c) ∧
    (0 < c → canAfford none c = false) := by
  constructor
  · simp [canAfford]
  · intro hc
    simp only [canAfford, Option.getD_none, decide_eq_false_iff_not]
    omega

/-- C10 witness: the theorem evaluated at a present and an absent points
value. -/
theorem canAfford_characterization_witness :
    canAfford (some 7) 5 = true ∧ canAfford none 5 = false :=
  ⟨(canAfford_characterization (some 7) 5).1.mpr (by decide),
   (canAfford_characterization none 5).2 (by decide)⟩

/-! ### C3 -/

/-- C3 counterexample: the admin redemptions table status cell
(`RewardsManagement.vue` 504-511) renders the stored status unmodified,
so a time-expired redemption stored as `pending` is presented as
`pending`, not `expired` — not every read path prefers the time-derived
value. -/
theorem management_cell_ignores_expiry_cex :
    isExpired pendingExpiredRow.expires_at 100 = true ∧
    managementStatusCell pendingExpiredRow = "pending" ∧
    managementStatusCell pendingExpiredRow ≠ "expired" :=
  ⟨by decide, rfl, by decide⟩

/-- C3 amended: the tourist-facing history badge (`RewardsShop.vue`
466-468) does present `expired` whenever the time-derived check fires,
but the admin redemptions table cell presents the stored status field
unchanged, with no expiry override. -/
theorem read_paths_expiry_presentation (r : Redemption) (now : Int) :
    (isExpired r.expires_at now = true → historyBadgeStatus r now = "expired") ∧
    managementStatusCell r = r.status := by
  refine ⟨fun h => ?_, rfl⟩
  simp [historyBadgeStatus, h]

/-- C3 witness: the amended theorem evaluated on the concrete expired
`pending` row. -/
theorem read_paths_expiry_presentation_witness :
    historyBadgeStatus pendingExpiredRow 100 = "expired" :=
  (read_paths_expiry_presentation pendingExpiredRow 100).1 (by decide)

/-! ### C1 -/

/-- A redemption stored as `used`. -/
def usedRow : Redemption :=
  { id := 1, user_id := 1, reward_id := 1, points_spent := 50,
    voucher_code := "RWD-0-JK90LM12N", status := "used",
    created_at := 0, expires_at := 1000, claimed_by := some 2, claimed_at := some 3 }

/-- A store holding only the `used` redemption. -/
def storeWithUsedRow : Store :=
  { users := [], rewards := [], redemptions := [usedRow] }

/-- C1 counterexample: `used → pending` is outside the spec's allowed
transition set, yet `updateRedemptionStatus` applies it — the stored
status changes to `pending` instead of the operation failing with
`InvalidTransition` and leaving the status unchanged. -/
theorem updateRedemptionStatus_no_validation_cex :
    specAllowedTransition "used" "pending" = false ∧
    (updateRedemptionStatus storeWithUsedRow 1 "pending" 9 100).redemptions.map
      Redemption.status = ["pending"] :=
  ⟨by decide, by decide⟩

/-- C1 amended: `updateRedemptionStatus` performs no transition
validation: for every stored redemption and every requested status —
including requests outside the spec's allowed set, such as
`used → pending` — it unconditionally overwrites the stored status with
the requested one; the source has no `InvalidTransition` failure path. -/
theorem updateRedemptionStatus_writes_any_status
    (s : Store) (rid : Nat) (st : String) (actor : Nat) (now : Int)
    (r : Redemption)
    (hmem : r ∈ (updateRedemptionStatus s rid st actor now).redemptions)
    (hid : r.id = rid) : r.status = st := by
  obtain ⟨r₀, hr₀, hEq⟩ := List.mem_map.mp hmem
  by_cases h : r₀.id = rid
  · rw [← hEq]
    simp only [h, if_true]
    unfold applyRedemptionUpdate
    split <;> rfl
  · rw [← hEq] at hid
    simp [h] at hid

/-- C1 witness: the amended theorem evaluated on the concrete store,
requesting the invalid `used → pending` transition. -/
theorem updateRedemptionStatus_writes_any_status_witness :
    (applyRedemptionUpdate "pending" 9 100 usedRow).status = "pending" :=
  updateRedemptionStatus_writes_any_status storeWithUsedRow 1 "pending" 9 100
    (applyRedemptionUpdate "pending" 9 100 usedRow) (by decide) (by decide)

/-! ### C7 -/

/-- Each field update of `updateRedemptionStatus` leaves `points_spent`
alone. -/
theorem applyRedemptionUpdate_points_spent (st : String) (actor : Nat) (now : Int)
    (r : Redemption) :
    (applyRedemptionUpdate st actor now r).points_spent = r.points_spent := by
  unfold applyRedemptionUpdate
  split <;> rfl

/-- The `points_spent` column of a redemption list is untouched by the
status-update map. -/
theorem map_points_spent_update (rid : Nat) (st : String) (actor : Nat) (now : Int) :
    ∀ l : List Redemption,
      (l.map (fun r => if r.id = rid then applyRedemptionUpdate st actor now r else r)).map
        Redemption.points_spent = l.map Redemption.points_spent
  | [] => rfl
  | r :: l => by
    simp only [List.map_cons, map_points_spent_update rid st actor now l]
    by_cases h : r.id = rid <;>
      simp [h, applyRedemptionUpdate_points_spent]

/-- C7: a redemption's `points_spent` is never changed after creation:
`saveReward` (both the editing update and the create insert) leaves the
`redemptions` table untouched, and `updateRedemptionStatus` preserves the
`points_spent` of every redemption row. -/
theorem points_spent_immutable (isEditing : Bool) (f : RewardForm) (newId : Nat)
    (s : Store) (rid : Nat) (st : String) (actor : Nat) (now : Int) :
    (saveReward isEditing f newId s).redemptions = s.redemptions ∧
    (updateRedemptionStatus s rid st actor now).redemptions.map Redemption.points_spent
      = s.redemptions.map Redemption.points_spent := by
  constructor
  · unfold saveReward
    split
    · rfl
    · split <;> rfl
  · exact map_points_spent_update rid st actor now s.redemptions

/-! ### C8 -/

/-- C8: the status-transition operation writes only the redemption
record: the `users` and `rewards` tables (hence every points balance and
every stock quantity) are unchanged; the targeted row receives the
requested status, gets `claimed_by`/`claimed_at` set to the actor and
timestamp exactly when the new status is `claimed`, and keeps every other
field. -/
theorem updateRedemptionStatus_frame (s : Store) (rid : Nat) (st : String)
    (actor : Nat) (now : Int) (r : Redemption) :
    (updateRedemptionStatus s rid st actor now).users = s.users ∧
    (updateRedemptionStatus s rid st actor now).rewards = s.rewards ∧
    (updateRedemptionStatus s rid st actor now).redemptions
      = s.redemptions.map
          (fun x => if x.id = rid then applyRedemptionUpdate st actor now x else x) ∧
    (applyRedemptionUpdate st actor now r).id = r.id ∧
    (applyRedemptionUpdate st actor now r).user_id = r.user_id ∧
    (applyRedemptionUpdate st actor now r).reward_id = r.reward_id ∧
    (applyRedemptionUpdate st actor now r).points_spent = r.points_spent ∧
    (applyRedemptionUpdate st actor now r).voucher_code = r.voucher_code ∧
    (applyRedemptionUpdate st actor now r).created_at = r.created_at ∧
    (applyRedemptionUpdate st actor now r).expires_at = r.expires_at ∧
    (applyRedemptionUpdate st actor now r).status = st ∧
    (st = "claimed" →
      (applyRedemptionUpdate st actor now r).claimed_by = some actor ∧
      (applyRedemptionUpdate st actor now r).claimed_at = some now) ∧
    (st ≠ "claimed" →
      (applyRedemptionUpdate st actor now r).claimed_by = r.claimed_by ∧
      (applyRedemptionUpdate st actor now r).claimed_at = r.claimed_at) := by
  unfold updateRedemptionStatus applyRedemptionUpdate
  by_cases h : st = "claimed" <;> simp [h]

/-- C8 witness: the frame theorem evaluated on the concrete store for a
transition to `claimed`, discharging the `claimed`-case hypothesis. -/
theorem updateRedemptionStatus_frame_witness :
    (applyRedemptionUpdate "claimed" 9 100 usedRow).claimed_by = some 9 ∧
    (applyRedemptionUpdate "claimed" 9 100 usedRow).claimed_at = some 100 :=
  (updateRedemptionStatus_frame storeWithUsedRow 1 "claimed" 9 100 usedRow).2.2.2.2.2.2.2.2.2.2.2.1
    rfl

/-! ### C2 -/

/-- A store whose only user holds 50 points. -/
def ecoStoreBefore : Store :=
  { users := [{ id := 1, points := 50 }], rewards := [], redemptions := [] }

/-- C2 counterexample: the eco-action points write is computed from the
client-side cached profile and written as an absolute value.  With the
store holding 50 points and the cached profile reporting 0, the write
stores `0 + 10 = 10`, not `50 + 10 = 60` — a points mutation that treats
a client-side cached balance as authoritative (read-then-separately-write
on the points counter). -/
theorem eco_action_write_uses_cached_balance_cex :
    ecoStoreBefore.users = [{ id := 1, points := 50 }] ∧
    (applyEcoActionPointsWrite (some 0) 1 ecoStoreBefore).users
      = [{ id := 1, points := 10 }] ∧
    (10 : Int) ≠ 50 + 10 :=
  ⟨rfl, by decide, by decide⟩

/-- C2 amended: the redemption decrement goes through the store-side
`redeem_reward` procedure, but the eco-action (+10) and event-attendance
points increments are client-computed: the value written to the user's
row is a function of the previously read (cached) balance alone —
`cached + 10`, respectively `read + points_reward` — independent of the
balance the store currently holds. -/
theorem points_increments_use_client_values (cached readPts : Option Int)
    (pointsReward : Int) (uid : Nat) (s : Store) (u v : User)
    (hu : u ∈ (applyEcoActionPointsWrite cached uid s).users) (hu1 : u.id = uid)
    (hv : v ∈ (applyAttendancePointsWrite readPts pointsReward uid s).users)
    (hv1 : v.id = uid) :
    u.points = cached.getD 0 + 10 ∧
    v.points = readPts.getD 0 + pointsReward := by
  constructor
  · obtain ⟨u₀, hu₀, hEq⟩ := List.mem_map.mp hu
    by_cases h : u₀.id = uid
    · rw [← hEq]
      simp [h, ecoActionNewPoints]
    · rw [← hEq] at hu1
      simp [h] at hu1
  · obtain ⟨v₀, hv₀, hEq⟩ := List.mem_map.mp hv
    by_cases h : v₀.id = uid
    · rw [← hEq]
      simp [h, attendanceNewPoints]
    · rw [← hEq] at hv1
      simp [h] at hv1

/-- C2 witness: the amended theorem evaluated on the concrete store with
a stale cached balance of 0 against a stored balance of 50. -/
theorem points_increments_use_client_values_witness :
    ({ id := 1, points := 10 } : User).points = (some (0 : Int)).getD 0 + 10 ∧
    ({ id := 1, points := 25 } : User).points = (some (0 : Int)).getD 0 + 25 :=
  points_increments_use_client_values (some 0) (some 0) 25 1 ecoStoreBefore
    { id := 1, points := 10 } { id := 1, points := 25 }
    (by decide) (by decide) (by decide) (by decide)

/-! ### C5 -/

/-- C5: for a user with points `P` and a reward costing `C > P`, the
client flow fails with the insufficient-points outcome at its very first
check, before the RPC is invoked: the returned store is the input store,
so neither the balance nor any stock changed. -/
theorem redeem_insufficient_fails_fast (pfx : String) (off : Int) (P C : Int)
    (uid : Nat) (reward : Reward) (confirmed : Bool) (now : Int) (rand : String)
    (newId : Nat) (s : Store)
    (hcost : reward.points_cost = C) (hPC : P < C) :
    redeemReward pfx off (some P) uid reward confirmed now rand newId s
      = (.insufficientPoints, s) := by
  unfold redeemReward
  have hfalse : canAfford (some P) reward.points_cost = false := by
    simp only [canAfford, Option.getD_some, decide_eq_false_iff_not, hcost]
    omega
  simp [hfalse]

/-- C5 witness: the theorem evaluated at a user with 3 points and a
reward costing 10, over a concrete non-empty store. -/
theorem redeem_insufficient_fails_fast_witness :
    redeemReward "RWD" 30 (some 3) 1
        { id := 4, name := "Mug", description := "Mug", points_cost := 10,
          stock_quantity := some 5, category := "general", is_active := true,
          reward_image_url := none }
        true 0 "AB12CD34E" 9 ecoStoreBefore
      = (.insufficientPoints, ecoStoreBefore) :=
  redeem_insufficient_fails_fast "RWD" 30 3 10 1 _ true 0 "AB12CD34E" 9
    ecoStoreBefore rfl (by decide)

/-! ### C6 -/

/-- A reward with tracked stock exhausted (`stock_quantity = 0`). -/
def outOfStockReward : Reward :=
  { id := 2, name := "Hat", description := "Hat", points_cost := 5,
    stock_quantity := some 0, category := "general", is_active := true,
    reward_image_url := none }

/-- C6 counterexample: the insufficient-points check runs before the
stock check, so a user who cannot afford an exhausted reward gets the
insufficient-points failure, not `OutOfStock` — the failure is not
`OutOfStock` *exactly when* stock is non-null and not positive. -/
theorem outOfStock_not_exact_cex :
    outOfStockReward.stock_quantity = some 0 ∧
    (redeemReward "RWD" 30 (some 0) 1 outOfStockReward true 0 "AB12CD34E" 5
        ecoStoreBefore).1 = .insufficientPoints ∧
    RedeemOutcome.insufficientPoints ≠ RedeemOutcome.outOfStock :=
  ⟨rfl, by decide, by decide⟩

/-- C6 amended: the client flow fails with the out-of-stock outcome
exactly when the affordability check passes *and* the stock quantity is
non-null and not greater than zero; a null stock quantity never produces
the out-of-stock failure, neither client-side nor in the modelled
store-side procedure. -/
theorem outOfStock_characterization (pfx : String) (off : Int) (pp : Option Int)
    (uid : Nat) (reward : Reward) (confirmed : Bool) (now : Int) (rand : String)
    (newId : Nat) (s : Store) :
    ((redeemReward pfx off pp uid reward confirmed now rand newId s).1
        = .outOfStock
      ↔ canAfford pp reward.points_cost = true ∧
        reward.stock_quantity ≠ none ∧ reward.stock_quantity.getD 0 ≤ 0) ∧
    (reward.stock_quantity = none →
      (redeemReward pfx off pp uid reward confirmed now rand newId s).1
        ≠ .outOfStock) ∧
    (∀ rwrd : Reward, findReward s reward.id = some rwrd →
      rwrd.stock_quantity = none →
      (redeemRpc pfx off s uid reward.id now rand newId).1
        ≠ .error .outOfStock) := by
  have hiff : (redeemReward pfx off pp uid reward confirmed now rand newId s).1
      = .outOfStock
      ↔ canAfford pp reward.points_cost = true ∧
        reward.stock_quantity ≠ none ∧ reward.stock_quantity.getD 0 ≤ 0 := by
    by_cases hca : canAfford pp reward.points_cost = true
    · by_cases hst : reward.stock_quantity ≠ none ∧ reward.stock_quantity.getD 0 ≤ 0
      · simp [redeemReward, hca, hst]
      · by_cases hc : confirmed
        · rcases hrpc : redeemRpc pfx off s uid reward.id now rand newId with ⟨res, s₂⟩
          cases res <;> simp [redeemReward, hca, hst, hc, hrpc]
        · simp [redeemReward, hca, hst, hc]
    · simp [redeemReward, hca]
  refine ⟨hiff, fun hnone h => ((hiff.mp h).2.1) hnone, ?_⟩
  intro rwrd hfr hnone
  unfold redeemRpc
  cases hfu : findUser s uid with
  | none => simp
  | some u =>
    rw [hfr]
    simp only []
    split_ifs <;> simp_all [stockExhausted]

/-- C6 witness: the amended characterization applied to an affordable,
exhausted reward yields the out-of-stock outcome. -/
theorem outOfStock_characterization_witness :
    (redeemReward "RWD" 30 (some 10) 1 outOfStockReward true 0 "AB12CD34E" 5
        ecoStoreBefore).1 = .outOfStock :=
  (outOfStock_characterization "RWD" 30 (some 10) 1 outOfStockReward true 0
    "AB12CD34E" 5 ecoStoreBefore).1.mpr ⟨by decide, by decide, by decide⟩

/-! ### C9 -/

/-- A user able to afford the demo reward. -/
def demoUser : User := { id := 1, points := 150 }

/-- A demo reward with one unit of tracked stock. -/
def demoReward : Reward :=
  { id := 1, name := "Tote", description := "Bag", points_cost := 100,
    stock_quantity := some 1, category := "general", is_active := true,
    reward_image_url := none }

/-- The store before the demo redemption. -/
def demoStore : Store :=
  { users := [demoUser], rewards := [demoReward], redemptions := [] }

/-- The redemption the demo `redeem_reward` call creates. -/
def demoRedemption : Redemption :=
  { id := 7, user_id := 1, reward_id := 1, points_spent := 100,
    voucher_code := "RWD-0-K9J3QZ7PL", status := "pending",
    created_at := 0, expires_at := 30, claimed_by := none, claimed_at := none }

/-- The store after the demo redemption. -/
def demoStoreAfter : Store :=
  { users := [{ id := 1, points := 50 }],
    rewards := [{ demoReward with stock_quantity := some 0 }],
    redemptions := [demoRedemption] }

/-- C9: a successful run of the redemption procedure issues a voucher
code distinct from the code of every previously created redemption, and
pairwise distinctness of all stored codes is preserved — uniqueness holds
across repeated redemptions of the same and of different rewards, because
the unique `voucher_code` column blocks any colliding commit. -/
theorem redeem_voucher_code_unique (pfx : String) (off : Int) (s : Store)
    (uid rid : Nat) (now : Int) (rand : String) (newId : Nat)
    (red : Redemption) (s₂ : Store)
    (hok : redeemRpc pfx off s uid rid now rand newId = (.ok red, s₂))
    (hnd : s.codes.Nodup) :
    red.voucher_code ∉ s.codes ∧ s₂.codes.Nodup := by
  unfold redeemRpc at hok
  cases hfu : findUser s uid with
  | none => rw [hfu] at hok; simp at hok
  | some u =>
    rw [hfu] at hok
    cases hfr : findReward s rid with
    | none => rw [hfr] at hok; simp at hok
    | some rwrd =>
      rw [hfr] at hok
      simp only [] at hok
      split_ifs at hok with h1 h2 h3 h4
      · simp at hok
      · simp at hok
      · simp at hok
      · simp at hok
      · simp only [Prod.mk.injEq, Except.ok.injEq] at hok
        obtain ⟨hred, hs₂⟩ := hok
        subst hred
        subst hs₂
        refine ⟨h4, ?_⟩
        have hnew : (s.redemptions.map Redemption.voucher_code
            ++ [voucherCode pfx now rand]).Nodup := by
          rw [List.nodup_append]
          refine ⟨hnd, List.nodup_singleton _, ?_⟩
          intro a ha hb
          simp only [List.mem_singleton] at hb
          subst hb
          exact h4 ha
        simpa [Store.codes] using hnew

/-- C9 witness: the theorem evaluated on a concrete successful
redemption: the issued code is new and the stored codes stay pairwise
distinct. -/
theorem redeem_voucher_code_unique_witness :
    demoRedemption.voucher_code ∉ demoStore.codes ∧ demoStoreAfter.codes.Nodup :=
  redeem_voucher_code_unique "RWD" 30 demoStore 1 1 0 "K9J3QZ7PL" 7
    demoRedemption demoStoreAfter rfl (by decide)

end PanaragaPulse
